import Mathlib

/-!
Verification of the RBDtector annotation-conversion subsystem.

Shallow embedding of the Python sources:
  code/convert_edf_annotations.py      (embedded-annotation extractor)
  code/convert_excel_annotations.py    (spreadsheet-annotation extractor)
  code/convert_standard_to_edfplus.py  (header-normalizing converter)
  code/detect_edf_format.py            (format classifier)
  code/auto_convert.py                 (dispatcher and batch CLI)

Conventions: absolute datetimes are a day index plus the time of day in
microseconds (Python `datetime` objects); annotation onsets and durations are
in microseconds (the source keeps float seconds; all inputs of interest are
exact at microsecond resolution); file-system and subprocess effects are
passed in as explicit oracle values (`Except` for operations the source wraps
in try/except). The Python string primitives the sources use (`in`, `lower`,
`replace`, `strip`, `split`, `int`, `endswith`, slicing) are modelled as
structural functions over character lists so that every definition evaluates
by kernel reduction.
-/

/-- A calendar instant: day index plus time of day in microseconds, standing
for a Python `datetime`. `tod < 86400000000` for every value built from a
valid start time. -/
structure DateTime where
  day : Nat
  tod : Nat
  deriving Repr, DecidableEq

/-- Microseconds in a day. -/
def microsPerDay : Nat := 86400000000

/-- Microseconds in a second. -/
def microsPerSecond : Nat := 1000000

/-- Total microseconds of an instant (for comparing instants). -/
def DateTime.toMicros (t : DateTime) : Nat := t.day * microsPerDay + t.tod

/-- Python `dt + datetime.timedelta(...)`: microseconds roll over into days. -/
def DateTime.addMicros (t : DateTime) (n : Nat) : DateTime :=
  ⟨t.day + (t.tod + n) / microsPerDay, (t.tod + n) % microsPerDay⟩

/-- Python `dt.replace(microsecond=0)`: truncate to the whole second. -/
def DateTime.truncSec (t : DateTime) : DateTime :=
  ⟨t.day, t.tod / microsPerSecond * microsPerSecond⟩

/-- Whether the character list `pat` begins the character list `s`. -/
def leadMatch : List Char → List Char → Bool
  | [], _ => true
  | _ :: _, [] => false
  | a :: as, b :: bs => a == b && leadMatch as bs

/-- Whether `pat` occurs as a contiguous run inside `s`. -/
def occursIn (pat : List Char) : List Char → Bool
  | [] => leadMatch pat []
  | c :: rest => leadMatch pat (c :: rest) || occursIn pat rest

/-- Python `pat in s` on strings. -/
def strContains (s pat : String) : Bool := occursIn pat.data s.data

/-- Python `s.lower()` (ASCII, which covers every label the sources test). -/
def pyLower (s : String) : String := String.mk (s.data.map Char.toLower)

/-- If `pat` begins `s`, the remainder of `s` past it. -/
def matchRest : List Char → List Char → Option (List Char)
  | [], s => some s
  | _ :: _, [] => none
  | a :: as, b :: bs => if a = b then matchRest as bs else none

/-- Python `s.replace(pat, rep)` — leftmost, non-overlapping — by fuel on the
length of `s` (at least one character is consumed per step, so `s.length`
fuel is enough; an empty `pat`, which the sources never pass, replaces
nothing). -/
def replaceFuel (pat rep : List Char) : Nat → List Char → List Char
  | 0, s => s
  | _ + 1, [] => []
  | fuel + 1, c :: rest =>
    match matchRest pat (c :: rest) with
    | some rem =>
      match pat with
      | [] => c :: replaceFuel pat rep fuel rest
      | _ :: _ => rep ++ replaceFuel pat rep fuel rem
    | none => c :: replaceFuel pat rep fuel rest

/-- Python `s.replace(pat, rep)`. -/
def pyReplace (s pat rep : String) : String :=
  String.mk (replaceFuel pat.data rep.data s.data.length s.data)

/-- Python `s.strip()`. -/
def pyStrip (s : String) : String :=
  String.mk ((s.data.dropWhile Char.isWhitespace).reverse.dropWhile Char.isWhitespace).reverse

/-- Python `s.split(sep)` for an explicit separator, by fuel on the length of
`s` (an empty `sep`, which the sources never pass, splits nothing). -/
def splitFuel (sep : List Char) : Nat → List Char → List Char → List (List Char)
  | 0, s, acc => [acc.reverse ++ s]
  | _ + 1, [], acc => [acc.reverse]
  | fuel + 1, c :: rest, acc =>
    match matchRest sep (c :: rest) with
    | some rem =>
      match sep with
      | [] => splitFuel sep fuel rest (c :: acc)
      | _ :: _ => acc.reverse :: splitFuel sep fuel rem []
    | none => splitFuel sep fuel rest (c :: acc)

/-- Python `s.split(sep)`. -/
def pySplit (s sep : String) : List String :=
  (splitFuel sep.data s.data.length s.data []).map String.mk

/-- Python `int(s)` on the strings the sources feed it: defined exactly for a
non-empty all-decimal-digit string (this is also `str.isdigit()` followed by
`int`, detect_edf_format.py lines 107-108); other inputs make Python's `int`
raise inside a try/except, which the `none` branch models. -/
def pyToNat? (s : String) : Option Nat :=
  if s.data ≠ [] ∧ s.data.all Char.isDigit then
    some (s.data.foldl (fun acc c => acc * 10 + (c.toNat - 48)) 0)
  else none

/-- Python `s.endswith(t)`, and the fnmatch of a glob pattern `*<t>`. -/
def pyEndsWith (s t : String) : Bool :=
  leadMatch t.data.reverse s.data.reverse

/-- Python `s[:n]`. -/
def pyTake (s : String) (n : Nat) : String := String.mk (s.data.take n)

/-- One annotation of the recording, as `f.readAnnotations()` yields it:
onset and duration in microseconds, and the free-text label. -/
structure AnnEvent where
  onset : Nat
  duration : Nat
  label : String
  deriving Repr, DecidableEq

/-- The category an annotation falls into (or is silently dropped from). -/
inductive Category where
  | sleepStage
  | arousal
  | flowEvent
  | discarded
  deriving Repr, DecidableEq, BEq

/-- convert_edf_annotations.py lines 50-55: the if/elif/elif chain over the
event text; an event matching no branch is appended to no list. -/
def categorize (label : String) : Category :=
  if strContains label "Sleep stage" then .sleepStage
  else if strContains (pyLower label) "arousal" then .arousal
  else if strContains label "Apnea" || strContains label "Hyp" || strContains label "Desat" then
    .flowEvent
  else .discarded

/-- The `sleep_stages` list the extractor accumulates, in annotation order. -/
def sleepStagesOf (anns : List AnnEvent) : List AnnEvent :=
  anns.filter fun a => categorize a.label == Category.sleepStage

/-- The `arousals` list the extractor accumulates, in annotation order. -/
def arousalsOf (anns : List AnnEvent) : List AnnEvent :=
  anns.filter fun a => categorize a.label == Category.arousal

/-- The `flow_events` list the extractor accumulates, in annotation order. -/
def flowEventsOf (anns : List AnnEvent) : List AnnEvent :=
  anns.filter fun a => categorize a.label == Category.flowEvent

/-- convert_edf_annotations.py lines 59-76: the effective start time is the
(second-truncated) onset of the first sleep-stage annotation, else the header
start; line 75 truncates the chosen value to the whole second in either case.
(`onset_dt` is already second-truncated when stored at line 39; the second
`replace(microsecond=0)` at line 75 is kept here as the outer `truncSec`.) -/
def effectiveStart (start : DateTime) (anns : List AnnEvent) : DateTime :=
  match sleepStagesOf anns with
  | a :: _ => DateTime.truncSec (DateTime.truncSec (start.addMicros a.onset))
  | [] => DateTime.truncSec start

/-- Left-pad the decimal rendering of `n` with zeros to width `k`. -/
def padZeros (k n : Nat) : String :=
  String.mk (List.replicate (k - (toString n).length) '0') ++ toString n

/-- Python `dt.strftime("%H:%M:%S,%f")`: the time of day with comma-separated
six-digit microseconds. -/
def fmtTime (t : DateTime) : String :=
  padZeros 2 (t.tod / 3600000000) ++ ":" ++ padZeros 2 (t.tod / 60000000 % 60) ++ ":" ++
    padZeros 2 (t.tod / 1000000 % 60) ++ "," ++ padZeros 6 (t.tod % 1000000)

/-- convert_edf_annotations.py lines 99-102: strip the "Sleep stage " marker
and rename stage "R" to "REM". -/
def stageOf (label : String) : String :=
  let s := pyStrip (pyReplace label "Sleep stage " "")
  if s = "R" then "REM" else s

/-- convert_edf_annotations.py line 103: one row of the Sleep profile file,
timestamped with the full-precision onset. -/
def sleepProfileLines (start : DateTime) (anns : List AnnEvent) : List String :=
  (sleepStagesOf anns).map fun a =>
    fmtTime (start.addMicros a.onset) ++ "; " ++ stageOf a.label

/-- convert_edf_annotations.py lines 117-123 (and identically 137-143): one
row of the Classification Arousals / Flow Events file. The duration field is
`int((end - onset).total_seconds())`, the whole seconds of the duration. -/
def edfEventLine (start : DateTime) (a : AnnEvent) : String :=
  fmtTime (start.addMicros a.onset) ++ "-" ++ fmtTime (start.addMicros (a.onset + a.duration)) ++
    "; " ++ toString (a.duration / 1000000) ++ ";" ++ a.label

/-- The rows of the embedded extractor's Classification Arousals file. -/
def arousalLines (start : DateTime) (anns : List AnnEvent) : List String :=
  (arousalsOf anns).map (edfEventLine start)

/-- The rows of the embedded extractor's Flow Events file. -/
def flowEventLines (start : DateTime) (anns : List AnnEvent) : List String :=
  (flowEventsOf anns).map (edfEventLine start)

/-- Python `f"{d:.2f}"` for a duration held in hundredths of a second (the
spreadsheet's `Dur: <n> sec.` values carry two decimals). -/
def fmt2dp (centi : Nat) : String :=
  toString (centi / 100) ++ "." ++ padZeros 2 (centi % 100)

/-- convert_excel_annotations.py line 318 (and identically line 342): one row
of the spreadsheet extractor's Arousals / Flow Events file, with the duration
in hundredths of a second. -/
def excelEventLine (onset endT : DateTime) (durCenti : Nat) (ty : String) : String :=
  fmtTime onset ++ "-" ++ fmtTime endT ++ "; " ++ fmt2dp durCenti ++ "; " ++ ty

/-- convert_excel_annotations.py lines 252-259: the wall-clock components of a
spreadsheet timestamp are attached to the header start's calendar date, the
day unchanged. -/
def combineWithHeaderDate (edfStart : DateTime) (hour minute second centi : Nat) : DateTime :=
  ⟨edfStart.day, (hour * 3600 + minute * 60 + second) * 1000000 + centi * 10000⟩

/-- convert_excel_annotations.py lines 229-265, `parse_timestamp`: split
`HH:MM:SS.ff`, keep at most two fractional digits as centiseconds, combine
with the header date; any parse failure (or a component `datetime` would
reject) falls back to the header start time. -/
def parse_timestamp (ts : String) (edfStart : DateTime) : DateTime :=
  match pySplit ts ":" with
  | p0 :: p1 :: p2 :: _ =>
    match pyToNat? p0, pyToNat? p1 with
    | some hour, some minute =>
      match pySplit p2 "." with
      | s0 :: rest =>
        match pyToNat? s0 with
        | some second =>
          let centi? : Option Nat :=
            match rest with
            | [] => some 0
            | f :: _ => pyToNat? (pyTake f 2)
          match centi? with
          | some centi =>
            if hour ≤ 23 && minute ≤ 59 && second ≤ 59 then
              combineWithHeaderDate edfStart hour minute second centi
            else edfStart
          | none => edfStart
        | none => edfStart
      | [] => edfStart
    | _, _ => edfStart
  | _ => edfStart

/-- The `type` strings detect_edf_format can store. -/
inductive EdfType where
  | EDFC
  | EDFD
  | Standard
  | Invalid
  | Unknown
  deriving Repr, DecidableEq

/-- What a successful `pyedflib.EdfReader` open exposes to the classifier. -/
structure PyInfo where
  filetype : Int
  numSignals : Nat
  labels : List String
  numAnnotationsInFile : Nat
  deriving Repr, DecidableEq

/-- What the raw 256-byte header fallback yields when the read itself does not
raise: the stripped 4-character signal-count field (bytes 252-256) and the
decoded 16-byte label fields that follow the header. -/
structure HeaderData where
  numSignalsStr : String
  labels : List String
  deriving Repr, DecidableEq

/-- The file-system facts detect_edf_format consults for one path: whether
the path exists, the outcome of the `pyedflib.EdfReader` open, the outcome of
the raw header read, and the sibling-spreadsheet probes (`.xlsx` then
`.XLSX`, each `some` of its path when that sibling exists). -/
structure FileEnv where
  path : String
  fileExists : Bool
  pyOpen : Except String PyInfo
  headerRead : Except String HeaderData
  xlsxSibling : Option String
  xlsxUpperSibling : Option String

/-- The dictionary detect_edf_format returns (its seven keys, lines 28-35). -/
structure DetectResult where
  type : EdfType
  has_annotations : Bool
  pyedflib_compatible : Bool
  excel_file : Option String
  num_signals : Option Nat
  emg_channels : List (Nat × String)
  error : Option String
  deriving Repr, DecidableEq

/-- detect_edf_format.py lines 84-91 and 113-120: indices of the channels
whose label holds one of the muscle-activity keywords (case-sensitive). -/
def emgScan (labels : List String) : List (Nat × String) :=
  labels.enum.filter fun p =>
    ["EMG", "CHIN", "LEG", "Chin", "Lat", "Rat"].any fun kw => strContains p.2 kw

/-- detect_edf_format.py lines 126-134: the first sibling-spreadsheet
pattern that exists (`.xlsx` before `.XLSX`). -/
def excelProbe (env : FileEnv) : Option String :=
  match env.xlsxSibling with
  | some p => some p
  | none => env.xlsxUpperSibling

/-- detect_edf_format.py lines 17-136, `detect_edf_format`: an absent path is
Invalid; a pyedflib-readable file is typed from `filetype`; otherwise the raw
header fallback recovers the signal count and labels, and only a failure of
both reads populates `error`. -/
def detect_edf_format (env : FileEnv) : DetectResult :=
  if env.fileExists = false then
    { type := .Invalid, has_annotations := false, pyedflib_compatible := false,
      excel_file := none, num_signals := none, emg_channels := [],
      error := some ("File not found: " ++ env.path) }
  else
    match env.pyOpen with
    | .ok info =>
      { type := if info.filetype = 1 then .EDFC else if info.filetype = 2 then .EDFD
          else .Standard,
        has_annotations := decide (info.numAnnotationsInFile > 0),
        pyedflib_compatible := true,
        excel_file := excelProbe env,
        num_signals := some info.numSignals,
        emg_channels := emgScan info.labels,
        error := none }
    | .error e =>
      match env.headerRead with
      | .ok hd =>
        let ns := pyToNat? hd.numSignalsStr
        { type := .Standard, has_annotations := false, pyedflib_compatible := false,
          excel_file := excelProbe env,
          num_signals := ns,
          emg_channels :=
            match ns with
            | some n =>
              if n ≠ 0 then emgScan ((List.range n).map fun i => hd.labels.getD i "") else []
            | none => [],
          error := none }
      | .error he =>
        { type := .Standard, has_annotations := false, pyedflib_compatible := false,
          excel_file := excelProbe env,
          num_signals := none, emg_channels := [],
          error := some ("pyedflib error: " ++ e ++ ", header read error: " ++ he) }

/-- What `subprocess.run` hands back for one converter invocation. -/
structure ProcResult where
  returncode : Int
  stdout : String
  stderr : String
  deriving Repr, DecidableEq

/-- The dictionary auto_convert.convert_single_file returns, plus `invoked`:
the converter subprocesses actually launched (an observation of the calls to
`subprocess.run`, used to state "no conversion was attempted"). -/
structure Outcome where
  success : Bool
  converter_used : Option String
  output_files : List String
  error : Option String
  invoked : List String
  deriving Repr, DecidableEq

/-- auto_convert.py lines 28-202, `convert_single_file`: dispatch on the
classifier verdict. `procAnnot` is the `convert_edf_annotations.py` run,
`procEdf` the `convert_standard_to_edfplus.py` run and `procExcel` the
`convert_excel_annotations.py` run, consulted only on the branches that
launch them; `stem`/`dir` name the input file. Python computes
`success = error is None` at line 180. -/
def convert_single_file (d : DetectResult) (procAnnot procEdf procExcel : ProcResult)
    (stem dir : String) : Outcome :=
  if d.type = .Invalid then
    { success := false, converter_used := none, output_files := [],
      error := d.error, invoked := [] }
  else if d.type = .EDFC ∧ d.has_annotations = true then
    if procAnnot.returncode ≠ 0 then
      { success := false, converter_used := some "convert_edf_annotations.py",
        output_files := [], error := some ("Converter failed: " ++ procAnnot.stderr),
        invoked := ["convert_edf_annotations.py"] }
    else
      { success := true, converter_used := some "convert_edf_annotations.py",
        output_files :=
          [dir ++ "/" ++ stem ++ " Sleep profile.txt",
           dir ++ "/" ++ stem ++ " Classification Arousals.txt",
           dir ++ "/" ++ stem ++ " Flow Events.txt"],
        error := none, invoked := ["convert_edf_annotations.py"] }
  else if d.type = .EDFD then
    { success := false,
      converter_used := some "convert_test8_to_continuous.py + convert_edf_annotations.py",
      output_files := [],
      error := some
        "EDF+D conversion not yet fully automated. Please use convert_test8_to_continuous.py manually.",
      invoked := [] }
  else if d.type = .Standard ∧ d.excel_file.isSome then
    if procEdf.returncode ≠ 0 then
      { success := false,
        converter_used := some "convert_excel_annotations.py + convert_standard_to_edfplus.py",
        output_files := [], error := some ("EDF conversion failed: " ++ procEdf.stderr),
        invoked := ["convert_standard_to_edfplus.py"] }
    else if procExcel.returncode ≠ 0 then
      { success := false,
        converter_used := some "convert_excel_annotations.py + convert_standard_to_edfplus.py",
        output_files := [], error := some ("Annotation conversion failed: " ++ procExcel.stderr),
        invoked := ["convert_standard_to_edfplus.py", "convert_excel_annotations.py"] }
    else
      { success := true,
        converter_used := some "convert_excel_annotations.py + convert_standard_to_edfplus.py",
        output_files :=
          [dir ++ "/" ++ stem ++ "_edfplus.edf",
           dir ++ "/" ++ stem ++ " Sleep profile.txt",
           dir ++ "/" ++ stem ++ " Classification Arousals.txt",
           dir ++ "/" ++ stem ++ " Flow Events.txt"],
        error := none, invoked := ["convert_standard_to_edfplus.py", "convert_excel_annotations.py"] }
  else
    { success := false, converter_used := none, output_files := [],
      error := some "No suitable converter found for this EDF format", invoked := [] }

/-- One process run of convert_edf_annotations.py as a script: its exit code,
the error line it printed (if any) and whether it reached the file writes.
The source wraps the whole body in try/except (lines 13-86), the handler only
prints, and `__main__` never calls `sys.exit`, so the process exit code is 0
on both paths. -/
structure ScriptRun where
  exitCode : Int
  loggedError : Option String
  wroteFiles : Bool
  deriving Repr, DecidableEq

/-- convert_edf_annotations.py lines 13-86 at process level: `readAnn` is the
outcome of opening the recording and reading its annotations. -/
def convertEdfAnnotationsScript (edfPath : String) (readAnn : Except String (List AnnEvent)) :
    ScriptRun :=
  match readAnn with
  | .ok _ => { exitCode := 0, loggedError := none, wroteFiles := true }
  | .error e =>
    { exitCode := 0,
      loggedError := some ("An error occurred while processing " ++ edfPath ++ ": " ++ e),
      wroteFiles := false }

/-- A file in the directory tree handed to the batch CLI: its base name and
whether it sits directly in the given directory (pathlib `glob` does not
recurse). -/
structure DirEntry where
  name : String
  topLevel : Bool
  deriving Repr, DecidableEq

/-- auto_convert.py line 231: `list(directory_path.glob('*.EDF')) +
list(directory_path.glob('*.edf'))` — non-recursive, and only the two exact
extension spellings. -/
def globEdfFiles (entries : List DirEntry) : List DirEntry :=
  entries.filter (fun e => e.topLevel && pyEndsWith e.name ".EDF") ++
    entries.filter (fun e => e.topLevel && pyEndsWith e.name ".edf")

/-- The tallies auto_convert.convert_directory returns (`resultsCount` is the
length of its `results` list: one record per globbed file). -/
structure BatchSummary where
  total : Nat
  success : Nat
  failed : Nat
  resultsCount : Nat
  deriving Repr, DecidableEq

/-- auto_convert.py lines 205-279, `convert_directory`: `none` models the
`return None` when no EDF file is found; otherwise every globbed file is
converted in turn (a failure never stops the loop) and tallied. -/
def convert_directory (entries : List DirEntry) (convert : DirEntry → Outcome) :
    Option BatchSummary :=
  let files := globEdfFiles entries
  if files.isEmpty then none
  else some
    { total := files.length,
      success := (files.filter fun f => (convert f).success).length,
      failed := (files.filter fun f => !(convert f).success).length,
      resultsCount := files.length }

/-- auto_convert.py lines 317-322: the directory branch of `main` —
`sys.exit(1)` when convert_directory returns None, else
`sys.exit(0 if batch_result['failed'] == 0 else 1)`. -/
def mainDirectoryExit (entries : List DirEntry) (convert : DirEntry → Outcome) : Int :=
  match convert_directory entries convert with
  | none => 1
  | some b => if b.failed = 0 then 0 else 1

/-- The dictionary convert_standard_to_edfplus returns. -/
structure ConvResult where
  success : Bool
  output_path : Option String
  error : Option String
  deriving Repr, DecidableEq

/-- convert_standard_to_edfplus.py lines 24-247: `readWrite` is the outcome of
steps 1-4 (MNE read, unit conversion, header preparation, EDF+C write) and
`verifyOpen` the outcome of step 5's mandatory `pyedflib.EdfReader` re-open of
the written file (lines 190-237). A verification failure yields success=false
with the error detail, the written path still recorded. -/
def convert_standard_to_edfplus (inputExists : Bool) (outputPath : String)
    (readWrite : Except String Unit) (verifyOpen : Except String Unit) : ConvResult :=
  if inputExists = false then
    { success := false, output_path := none, error := some "Input file not found" }
  else
    match readWrite with
    | .error e => { success := false, output_path := none, error := some e }
    | .ok _ =>
      match verifyOpen with
      | .ok _ => { success := true, output_path := some outputPath, error := none }
      | .error e =>
        { success := false, output_path := some outputPath,
          error := some ("Verification failed: " ++ e) }

/-- Boolean equality on `Category` reflects propositional equality. -/
theorem catBeqEq {x y : Category} (h : (x == y) = true) : x = y := by
  cases x <;> cases y <;> first | rfl | exact absurd h (by decide)

/-- The filter predicate of `sleepStagesOf` is the chain's first test. -/
theorem sleepPredEq (a : AnnEvent) :
    (categorize a.label == Category.sleepStage) = strContains a.label "Sleep stage" := by
  cases h1 : strContains a.label "Sleep stage" <;>
    cases h2 : strContains (pyLower a.label) "arousal" <;>
      cases h3 : (strContains a.label "Apnea" || strContains a.label "Hyp" ||
          strContains a.label "Desat") <;>
        simp [categorize, h1, h2, h3] <;> rfl

/-- The head of a filtered list is the first element satisfying the filter. -/
theorem filterHeadEqFind {α : Type} (p : α → Bool) : ∀ l : List α, (l.filter p).head? = l.find? p
  | [] => rfl
  | a :: l => by
    cases h : p a <;> simp [List.filter_cons, List.find?_cons, h, filterHeadEqFind p l]

/-- Second-truncation is idempotent. -/
theorem truncSecIdem (t : DateTime) : t.truncSec.truncSec = t.truncSec := by
  simp [DateTime.truncSec, microsPerSecond]

/-- C1 (amended): for every header start and annotation list, the effective
start time is the second-truncated absolute onset of the first annotation
whose label holds "Sleep stage", regardless of the other annotations; with no
such annotation it is the second-truncated header start time. -/
theorem C1_effective_start (start : DateTime) (anns : List AnnEvent) :
    (∀ a : AnnEvent,
        anns.find? (fun x => strContains x.label "Sleep stage") = some a →
        effectiveStart start anns = DateTime.truncSec (start.addMicros a.onset))
    ∧ (anns.find? (fun x => strContains x.label "Sleep stage") = none →
        effectiveStart start anns = DateTime.truncSec start) := by
  have hfilt : sleepStagesOf anns = anns.filter fun x => strContains x.label "Sleep stage" := by
    unfold sleepStagesOf
    congr 1
    funext x
    exact sleepPredEq x
  have hhead : (sleepStagesOf anns).head? = anns.find? fun x => strContains x.label "Sleep stage" := by
    rw [hfilt]
    exact filterHeadEqFind _ anns
  constructor
  · intro a ha
    rw [← hhead] at ha
    unfold effectiveStart
    cases hs : sleepStagesOf anns with
    | nil => rw [hs] at ha; simp at ha
    | cons b t =>
      rw [hs] at ha
      simp at ha
      subst ha
      simp [truncSecIdem]
  · intro ha
    rw [← hhead] at ha
    unfold effectiveStart
    cases hs : sleepStagesOf anns with
    | nil => simp
    | cons b t => rw [hs] at ha; simp at ha

/-- C1 witness: a sleep stage preceded by an arousal annotation; the sleep
stage (onset 30 s past a start of 22:00:00.5) anchors the effective start. -/
theorem C1_effective_start_witness :
    effectiveStart ⟨0, 79200500000⟩ [⟨0, 0, "EEG arousal"⟩, ⟨30000000, 0, "Sleep stage W"⟩] =
      DateTime.truncSec (DateTime.addMicros ⟨0, 79200500000⟩ 30000000) :=
  (C1_effective_start ⟨0, 79200500000⟩ _).1 ⟨30000000, 0, "Sleep stage W"⟩ (by decide)

/-- C1 counterexample: with no sleep-stage annotation and a header start of
00:00:00.5, the effective start is the truncated 00:00:00, not the header
start itself as the claim states. -/
theorem C1_fallback_truncation_counterexample :
    effectiveStart ⟨0, 500000⟩ [⟨0, 0, "EEG arousal"⟩] ≠ ⟨0, 500000⟩ := by
  decide

/-- C3: the categorization is a deterministic, exhaustive partition: every
label lands in exactly one of the four outcomes, each outcome is equivalent
to the spec's ordered substring rule, and no event is in two of the three
accumulated lists. -/
theorem C3_categorization_partition (label : String) :
    (categorize label = .sleepStage ∨ categorize label = .arousal ∨
      categorize label = .flowEvent ∨ categorize label = .discarded)
    ∧ (categorize label = .sleepStage ↔ strContains label "Sleep stage" = true)
    ∧ (categorize label = .arousal ↔
        strContains label "Sleep stage" = false ∧ strContains (pyLower label) "arousal" = true)
    ∧ (categorize label = .flowEvent ↔
        strContains label "Sleep stage" = false ∧ strContains (pyLower label) "arousal" = false ∧
          (strContains label "Apnea" || strContains label "Hyp" || strContains label "Desat") = true)
    ∧ (categorize label = .discarded ↔
        strContains label "Sleep stage" = false ∧ strContains (pyLower label) "arousal" = false ∧
          (strContains label "Apnea" || strContains label "Hyp" || strContains label "Desat") = false)
    ∧ (∀ (anns : List AnnEvent) (a : AnnEvent),
        ¬(a ∈ sleepStagesOf anns ∧ a ∈ arousalsOf anns) ∧
        ¬(a ∈ sleepStagesOf anns ∧ a ∈ flowEventsOf anns) ∧
        ¬(a ∈ arousalsOf anns ∧ a ∈ flowEventsOf anns)) := by
  refine ⟨?_, ?_, ?_, ?_, ?_, ?_⟩
  · cases h1 : strContains label "Sleep stage" <;>
      cases h2 : strContains (pyLower label) "arousal" <;>
        cases h3 : (strContains label "Apnea" || strContains label "Hyp" ||
            strContains label "Desat") <;>
          simp [categorize, h1, h2, h3]
  · cases h1 : strContains label "Sleep stage" <;>
      cases h2 : strContains (pyLower label) "arousal" <;>
        cases h3 : (strContains label "Apnea" || strContains label "Hyp" ||
            strContains label "Desat") <;>
          simp [categorize, h1, h2, h3]
  · cases h1 : strContains label "Sleep stage" <;>
      cases h2 : strContains (pyLower label) "arousal" <;>
        cases h3 : (strContains label "Apnea" || strContains label "Hyp" ||
            strContains label "Desat") <;>
          simp [categorize, h1, h2, h3]
  · cases h1 : strContains label "Sleep stage" <;>
      cases h2 : strContains (pyLower label) "arousal" <;>
        cases h3 : (strContains label "Apnea" || strContains label "Hyp" ||
            strContains label "Desat") <;>
          simp [categorize, h1, h2, h3]
  · cases h1 : strContains label "Sleep stage" <;>
      cases h2 : strContains (pyLower label) "arousal" <;>
        cases h3 : (strContains label "Apnea" || strContains label "Hyp" ||
            strContains label "Desat") <;>
          simp [categorize, h1, h2, h3]
  · intro anns a
    refine ⟨?_, ?_, ?_⟩ <;> rintro ⟨hx, hy⟩ <;>
        simp only [sleepStagesOf, arousalsOf, flowEventsOf, List.mem_filter] at hx hy
    · have e1 := catBeqEq hx.2
      have e2 := catBeqEq hy.2
      rw [e1] at e2
      exact absurd e2 (by decide)
    · have e1 := catBeqEq hx.2
      have e2 := catBeqEq hy.2
      rw [e1] at e2
      exact absurd e2 (by decide)
    · have e1 := catBeqEq hx.2
      have e2 := catBeqEq hy.2
      rw [e1] at e2
      exact absurd e2 (by decide)

/-- C2 (amended): the concrete scenario holds as stated — Sleep-profile rows
"22:00:00,000000; W" / "22:00:30,000000; REM" and the Arousals row
"22:00:35,000000-22:00:47,000000; 12;EEG arousal" — and every embedded
extractor event row puts no space between the second semicolon and the
label, while every spreadsheet extractor event row ends "; " + label. -/
theorem C2_event_line_format :
    sleepProfileLines ⟨0, 79200000000⟩
        [⟨0, 0, "Sleep stage W"⟩, ⟨30000000, 0, "Sleep stage R"⟩,
         ⟨35000000, 12000000, "EEG arousal"⟩] =
      ["22:00:00,000000; W", "22:00:30,000000; REM"]
    ∧ arousalLines ⟨0, 79200000000⟩
        [⟨0, 0, "Sleep stage W"⟩, ⟨30000000, 0, "Sleep stage R"⟩,
         ⟨35000000, 12000000, "EEG arousal"⟩] =
      ["22:00:35,000000-22:00:47,000000; 12;EEG arousal"]
    ∧ (∀ (start : DateTime) (a : AnnEvent), ∃ front : String,
        edfEventLine start a = front ++ ";" ++ a.label)
    ∧ (∀ (onset endT : DateTime) (durCenti : Nat) (ty : String), ∃ front : String,
        excelEventLine onset endT durCenti ty = front ++ "; " ++ ty) :=
  ⟨rfl, rfl, fun _ _ => ⟨_, rfl⟩, fun _ _ _ _ => ⟨_, rfl⟩⟩

/-- C2 counterexample: the spreadsheet extractor's Arousals row for a
19.6-second RERA keeps a space between the second semicolon and the label,
so it differs from the claimed no-space form. -/
theorem C2_spreadsheet_spacing_counterexample :
    excelEventLine ⟨0, 79235000000⟩ ⟨0, 79254600000⟩ 1960 "RERA" =
      "22:00:35,000000-22:00:54,600000; 19.60; RERA"
    ∧ "22:00:35,000000-22:00:54,600000; 19.60; RERA" ≠
        "22:00:35,000000-22:00:54,600000; 19.60;RERA" :=
  ⟨rfl, by decide⟩

/-- C4 (amended): for every classifier result typed EDF+D, the dispatcher
launches no converter and returns a failed outcome with no output files and
the fixed "not yet fully automated" error. -/
theorem C4_edfd_dispatch (d : DetectResult) (p1 p2 p3 : ProcResult) (stem dir : String)
    (h : d.type = .EDFD) :
    convert_single_file d p1 p2 p3 stem dir =
      { success := false,
        converter_used := some "convert_test8_to_continuous.py + convert_edf_annotations.py",
        output_files := [],
        error := some
          "EDF+D conversion not yet fully automated. Please use convert_test8_to_continuous.py manually.",
        invoked := [] } := by
  simp [convert_single_file, h]

/-- C4 witness: the EDF+D dispatch at a concrete verdict. -/
theorem C4_edfd_dispatch_witness :
    convert_single_file ⟨.EDFD, true, true, none, none, [], none⟩ ⟨0, "", ""⟩ ⟨0, "", ""⟩
        ⟨0, "", ""⟩ "Test8" "/data" =
      { success := false,
        converter_used := some "convert_test8_to_continuous.py + convert_edf_annotations.py",
        output_files := [],
        error := some
          "EDF+D conversion not yet fully automated. Please use convert_test8_to_continuous.py manually.",
        invoked := [] } :=
  C4_edfd_dispatch _ _ _ _ _ _ rfl

/-- C4 counterexample: on an EDF+D verdict the dispatcher produces no output
files and a failed outcome, against the claimed converter chain ending in the
three canonical text files. -/
theorem C4_edfd_no_conversion_counterexample :
    (convert_single_file ⟨.EDFD, true, true, none, none, [], none⟩ ⟨0, "", ""⟩ ⟨0, "", ""⟩
        ⟨0, "", ""⟩ "Test8" "/data").output_files = []
    ∧ (convert_single_file ⟨.EDFD, true, true, none, none, [], none⟩ ⟨0, "", ""⟩ ⟨0, "", ""⟩
        ⟨0, "", ""⟩ "Test8" "/data").success = false
    ∧ (convert_single_file ⟨.EDFD, true, true, none, none, [], none⟩ ⟨0, "", ""⟩ ⟨0, "", ""⟩
        ⟨0, "", ""⟩ "Test8" "/data").invoked = [] :=
  ⟨rfl, rfl, rfl⟩

/-- C5: after a successful write, the converter's outcome is success exactly
when the mandatory re-open verification succeeds, and a verification failure
yields success = false with the "Verification failed" detail while the
written output path stays recorded. -/
theorem C5_verification_failure (outputPath : String) (verifyOpen : Except String Unit) :
    ((convert_standard_to_edfplus true outputPath (.ok ()) verifyOpen).success = true ↔
      verifyOpen = .ok ())
    ∧ (∀ e : String, verifyOpen = .error e →
        convert_standard_to_edfplus true outputPath (.ok ()) verifyOpen =
          { success := false, output_path := some outputPath,
            error := some ("Verification failed: " ++ e) }) := by
  cases verifyOpen with
  | ok u => cases u; exact ⟨by simp [convert_standard_to_edfplus], by intro e he; cases he⟩
  | error e =>
    refine ⟨?_, ?_⟩
    · simp [convert_standard_to_edfplus]
    · intro e2 he
      cases he
      rfl

/-- C5 witness: a pyedflib re-open failure at a concrete output path. -/
theorem C5_verification_failure_witness :
    convert_standard_to_edfplus true "PS0140_211029_edfplus.edf" (.ok ())
        (.error "the file is not EDF(+) or BDF(+) compliant") =
      { success := false, output_path := some "PS0140_211029_edfplus.edf",
        error := some "Verification failed: the file is not EDF(+) or BDF(+) compliant" } :=
  (C5_verification_failure "PS0140_211029_edfplus.edf" _).2 _ rfl

/-- C6 (amended): a nonexistent input path is classified Invalid with the
explanatory "File not found" message, and the dispatcher then returns a
failed outcome with that message, launching no converter. -/
theorem C6_not_found_halts (env : FileEnv) (p1 p2 p3 : ProcResult) (stem dir : String)
    (h : env.fileExists = false) :
    detect_edf_format env =
      { type := .Invalid, has_annotations := false, pyedflib_compatible := false,
        excel_file := none, num_signals := none, emg_channels := [],
        error := some ("File not found: " ++ env.path) }
    ∧ convert_single_file (detect_edf_format env) p1 p2 p3 stem dir =
      { success := false, converter_used := none, output_files := [],
        error := some ("File not found: " ++ env.path), invoked := [] } := by
  have hd : detect_edf_format env =
      { type := .Invalid, has_annotations := false, pyedflib_compatible := false,
        excel_file := none, num_signals := none, emg_channels := [],
        error := some ("File not found: " ++ env.path) } := by
    simp [detect_edf_format, h]
  exact ⟨hd, by rw [hd]; rfl⟩

/-- C6 witness: a concrete missing path. -/
theorem C6_not_found_halts_witness :
    detect_edf_format ⟨"missing.edf", false, .error "", .error "", none, none⟩ =
      { type := .Invalid, has_annotations := false, pyedflib_compatible := false,
        excel_file := none, num_signals := none, emg_channels := [],
        error := some ("File not found: " ++ "missing.edf") }
    ∧ convert_single_file
        (detect_edf_format ⟨"missing.edf", false, .error "", .error "", none, none⟩)
        ⟨0, "", ""⟩ ⟨0, "", ""⟩ ⟨0, "", ""⟩ "missing" "." =
      { success := false, converter_used := none, output_files := [],
        error := some ("File not found: " ++ "missing.edf"), invoked := [] } :=
  C6_not_found_halts ⟨"missing.edf", false, .error "", .error "", none, none⟩
    ⟨0, "", ""⟩ ⟨0, "", ""⟩ ⟨0, "", ""⟩ "missing" "." rfl

/-- C6 counterexample: a Standard verdict without a companion spreadsheet is
not Invalid, yet the dispatcher attempts no conversion for it either
(no converter launched, failed outcome), so Invalid is not the only verdict
with no conversion attempt. -/
theorem C6_invalid_not_only_counterexample :
    ({ type := .Standard, has_annotations := false, pyedflib_compatible := false,
       excel_file := none, num_signals := some 10, emg_channels := [],
       error := none } : DetectResult).type ≠ .Invalid
    ∧ (convert_single_file
        { type := .Standard, has_annotations := false, pyedflib_compatible := false,
          excel_file := none, num_signals := some 10, emg_channels := [], error := none }
        ⟨0, "", ""⟩ ⟨0, "", ""⟩ ⟨0, "", ""⟩ "PS0140" "/data").invoked = []
    ∧ (convert_single_file
        { type := .Standard, has_annotations := false, pyedflib_compatible := false,
          excel_file := none, num_signals := some 10, emg_channels := [], error := none }
        ⟨0, "", ""⟩ ⟨0, "", ""⟩ ⟨0, "", ""⟩ "PS0140" "/data").success = false :=
  ⟨by decide, rfl, rfl⟩

/-- C7 (code bug evaluation): with a corrupt annotation block, the extractor
script catches the failure, logs it, writes nothing — and still exits 0, so
the dispatcher records the conversion as a success with the three expected
output paths; and a per-file failure never shortens a batch (both files of a
two-file batch are tallied). -/
theorem C7_swallowed_failure_eval :
    convertEdfAnnotationsScript "corrupt.edf" (.error "corrupt annotation block") =
      { exitCode := 0,
        loggedError := some "An error occurred while processing corrupt.edf: corrupt annotation block",
        wroteFiles := false }
    ∧ (convert_single_file
        { type := .EDFC, has_annotations := true, pyedflib_compatible := true,
          excel_file := none, num_signals := some 10, emg_channels := [], error := none }
        ⟨(convertEdfAnnotationsScript "corrupt.edf" (.error "corrupt annotation block")).exitCode,
         "", ""⟩
        ⟨0, "", ""⟩ ⟨0, "", ""⟩ "corrupt" "/data") =
      { success := true, converter_used := some "convert_edf_annotations.py",
        output_files :=
          ["/data/corrupt Sleep profile.txt", "/data/corrupt Classification Arousals.txt",
           "/data/corrupt Flow Events.txt"],
        error := none, invoked := ["convert_edf_annotations.py"] }
    ∧ convert_directory [⟨"corrupt.EDF", true⟩, ⟨"good.EDF", true⟩]
        (fun e => ⟨decide (e.name = "good.EDF"), none, [], none, []⟩) =
      some { total := 2, success := 1, failed := 1, resultsCount := 2 } :=
  ⟨rfl, rfl, rfl⟩

/-- C8 (amended): the batch glob selects exactly the entries directly in the
directory whose name ends with ".EDF" or ".edf" (those two spellings only,
no recursion), and the directory branch exits 0 iff at least one such file
exists and every selected file's conversion succeeded. -/
theorem C8_batch_selection_exit (entries : List DirEntry) (conv : DirEntry → Outcome) :
    (∀ e : DirEntry, e ∈ globEdfFiles entries ↔
        e ∈ entries ∧ e.topLevel = true ∧
          (pyEndsWith e.name ".EDF" = true ∨ pyEndsWith e.name ".edf" = true))
    ∧ (mainDirectoryExit entries conv = 0 ↔
        globEdfFiles entries ≠ [] ∧ ∀ f ∈ globEdfFiles entries, (conv f).success = true) := by
  constructor
  · intro e
    simp only [globEdfFiles, List.mem_append, List.mem_filter, Bool.and_eq_true]
    tauto
  · unfold mainDirectoryExit convert_directory
    cases h : (globEdfFiles entries).isEmpty with
    | true =>
      have hnil : globEdfFiles entries = [] := List.isEmpty_iff.mp h
      simp [h, hnil]
    | false =>
      have hne : globEdfFiles entries ≠ [] := by
        intro hq
        rw [hq] at h
        simp at h
      simp only [h, Bool.false_eq_true, if_false]
      constructor
      · intro h0
        refine ⟨hne, ?_⟩
        by_cases hz :
            ((globEdfFiles entries).filter fun f => !(conv f).success).length = 0
        · intro f hf
          have : (globEdfFiles entries).filter (fun f => !(conv f).success) = [] :=
            List.length_eq_zero.mp hz
          have := List.filter_eq_nil_iff.mp this f hf
          simp at this
          exact this
        · rw [if_neg hz] at h0
          cases h0
      · rintro ⟨-, hall⟩
        have : (globEdfFiles entries).filter (fun f => !(conv f).success) = [] := by
          refine List.filter_eq_nil_iff.mpr ?_
          intro f hf
          simp [hall f hf]
        rw [this]
        rfl

/-- C8 counterexample: a lone recording inside a subdirectory, and a lone
top-level "b.Edf", both carry the recording extension case-insensitively yet
are not selected; and an empty selection makes the CLI exit 1 rather than 0. -/
theorem C8_selection_counterexample :
    globEdfFiles [⟨"a.edf", false⟩] = []
    ∧ pyEndsWith (pyLower "a.edf") ".edf" = true
    ∧ globEdfFiles [⟨"b.Edf", true⟩] = []
    ∧ pyEndsWith (pyLower "b.Edf") ".edf" = true
    ∧ mainDirectoryExit [⟨"a.edf", false⟩] (fun _ => ⟨true, none, [], none, []⟩) = 1 :=
  ⟨rfl, rfl, rfl, rfl, rfl⟩

/-- C9: a spreadsheet wall-clock time is attached to the header start's
calendar date with no day rollover, so any row whose time of day is earlier
than the header start's maps strictly before the recording start; concretely,
parsing "01:30:00.00" against a 22:00:00 start lands on the same day at
01:30. -/
theorem C9_no_day_rollover (start : DateTime) (hour minute second centi : Nat) :
    ((hour * 3600 + minute * 60 + second) * 1000000 + centi * 10000 < start.tod →
      (combineWithHeaderDate start hour minute second centi).toMicros < start.toMicros)
    ∧ parse_timestamp "01:30:00.00" ⟨5, 79200000000⟩ =
        combineWithHeaderDate ⟨5, 79200000000⟩ 1 30 0 0 := by
  refine ⟨?_, rfl⟩
  intro h
  unfold combineWithHeaderDate DateTime.toMicros
  exact Nat.add_lt_add_left h _

/-- C9 witness: the 01:30 row of a recording started at 22:00 the previous
evening is placed 20.5 hours before the recording start. -/
theorem C9_no_day_rollover_witness :
    (combineWithHeaderDate ⟨5, 79200000000⟩ 1 30 0 0).toMicros <
      (⟨5, 79200000000⟩ : DateTime).toMicros :=
  (C9_no_day_rollover ⟨5, 79200000000⟩ 1 30 0 0).1 (by decide)

/-- C10 (amended): the classifier is total over its oracle environment and
returns the full seven-field record in every case; the `error` field is
populated exactly for an absent path or a failure of both the structured
reader and the raw header fallback — a structured-reader failure recovered
by the header fallback leaves `error` empty. -/
theorem C10_classifier_totality (env : FileEnv) :
    (env.fileExists = false →
      detect_edf_format env =
        { type := .Invalid, has_annotations := false, pyedflib_compatible := false,
          excel_file := none, num_signals := none, emg_channels := [],
          error := some ("File not found: " ++ env.path) })
    ∧ (∀ e he : String, env.fileExists = true → env.pyOpen = .error e →
        env.headerRead = .error he →
        detect_edf_format env =
          { type := .Standard, has_annotations := false, pyedflib_compatible := false,
            excel_file := excelProbe env, num_signals := none, emg_channels := [],
            error := some ("pyedflib error: " ++ e ++ ", header read error: " ++ he) })
    ∧ (∀ (e : String) (hd : HeaderData), env.fileExists = true → env.pyOpen = .error e →
        env.headerRead = .ok hd →
        (detect_edf_format env).error = none
        ∧ (detect_edf_format env).pyedflib_compatible = false
        ∧ (detect_edf_format env).type = .Standard) := by
  refine ⟨?_, ?_, ?_⟩
  · intro h
    simp [detect_edf_format, h]
  · intro e he h hp hh
    simp [detect_edf_format, h, hp, hh]
  · intro e hd h hp hh
    simp [detect_edf_format, h, hp, hh]

/-- C10 witness: both reads fail on an existing file with an upper-case
spreadsheet sibling; the combined message lands in `error`. -/
theorem C10_classifier_totality_witness :
    detect_edf_format ⟨"g.edf", true, .error "open failed", .error "header failed", none,
        some "G.XLSX"⟩ =
      { type := .Standard, has_annotations := false, pyedflib_compatible := false,
        excel_file := some "G.XLSX", num_signals := none, emg_channels := [],
        error := some ("pyedflib error: " ++ "open failed" ++ ", header read error: " ++
          "header failed") } :=
  (C10_classifier_totality _).2.1 "open failed" "header failed" rfl rfl rfl

/-- C10 counterexample: the structured reader fails but the header fallback
succeeds; the internal pyedflib failure is swallowed — `error` stays `none`
rather than recording it as the claim states. -/
theorem C10_swallowed_error_counterexample :
    detect_edf_format ⟨"f.edf", true, .error "pyedflib boom",
        .ok ⟨"2", ["EMG Chin", "C3"]⟩, none, none⟩ =
      { type := .Standard, has_annotations := false, pyedflib_compatible := false,
        excel_file := none, num_signals := some 2, emg_channels := [(0, "EMG Chin")],
        error := none } :=
  rfl
